import Mathlib

set_option maxHeartbeats 1000000

/-!
Verification development for the AgentFA repository.

The repository holds `example_auth_app.py` (a demo web application whose
protected routes delegate to an access-control gate living in modules the
repository does not ship) and `debug_memory.py` (a line-by-line execution
script).  The handlers and the debug loop are embedded directly from the
source; the access gate itself is modelled from the specification because
its code (`core.middleware.auth_middleware`) is absent from the sources.
-/

/-- Modelled from the spec: the decoded token payload (Principal, §3) produced
by the external verifier `core.middleware.auth_middleware`, which is missing
from the sources: subject identifier, email, role, session identifier and
issued-at/expiry timestamps. -/
structure Principal where
  sub : String
  email : String
  role : String
  sessionId : String
  iat : Nat
  exp : Nat
deriving DecidableEq, Repr

/-- Modelled from the spec: a capability requirement (§3) attached to a
protected operation: authenticated only, exact role, or any-of a role set. -/
inductive CapabilityRequirement where
  | authenticatedOnly : CapabilityRequirement
  | exactRole (r : String) : CapabilityRequirement
  | roleIn (rs : List String) : CapabilityRequirement
deriving DecidableEq, Repr

/-- Modelled from the spec: the denial taxonomy of §7. -/
inductive DenyReason where
  | MissingCredential : DenyReason
  | InvalidToken : DenyReason
  | SessionRevoked : DenyReason
  | RoleMismatch : DenyReason
  | DependencyUnavailable : DenyReason
deriving DecidableEq, Repr

/-- Modelled from the spec: the gate outcome sum type (§3): an authorized
principal or a denial carrying only a reason. -/
inductive GateOutcome where
  | Authorized (p : Principal) : GateOutcome
  | Denied (r : DenyReason) : GateOutcome
deriving DecidableEq, Repr

/-- Modelled from the spec: result of the external verifier
`verify(token) -> Principal | VerificationError` (§6), extended with a
transport-level fault as distinguished in §4.1. -/
inductive VerifyResult where
  | ok (p : Principal) : VerifyResult
  | verificationError : VerifyResult
  | fault : VerifyResult
deriving DecidableEq, Repr

/-- Modelled from the spec: result of the external session store
`lookupSession(sessionId) -> SessionState | NotFound` (§6), with the
session state live or revoked, plus a transport-level fault. -/
inductive SessionLookupResult where
  | active : SessionLookupResult
  | revoked : SessionLookupResult
  | notFound : SessionLookupResult
  | fault : SessionLookupResult
deriving DecidableEq, Repr

/-- Modelled from the spec: step 4 of §4.1 — whether a role satisfies a
capability requirement. -/
def roleSatisfies (role : String) : CapabilityRequirement → Bool
  | .authenticatedOnly => true
  | .exactRole r => role == r
  | .roleIn rs => rs.contains role

/-- Modelled from the spec: an external call or comparison the gate performs,
recorded so that short-circuiting (§4.1 step 1) and the ordering of role
comparison after verification (§3 invariant) can be stated. -/
inductive GateEvent where
  | verifyCall (cred : String) : GateEvent
  | sessionCall (sid : String) : GateEvent
  | roleCheck (role : String) (req : CapabilityRequirement) : GateEvent
deriving DecidableEq, Repr

/-- Modelled from the spec: the access gate of §4.1
(`core.middleware.auth_middleware` is missing from the sources), instrumented
with the list of external calls and comparisons it performs, in order.
Steps: missing-credential short-circuit, verifier delegation, session-store
consultation, role evaluation. Transport-level faults of either collaborator
become the distinct dependency-unavailable condition (§4.1 "no retries"). -/
def authorizeT (verify : String → VerifyResult)
    (lookupSession : String → SessionLookupResult)
    (rawCredential : Option String)
    (requirement : CapabilityRequirement) : GateOutcome × List GateEvent :=
  match rawCredential with
  | none => (.Denied .MissingCredential, [])
  | some c =>
    if c = "" then (.Denied .MissingCredential, [])
    else
      match verify c with
      | .fault => (.Denied .DependencyUnavailable, [.verifyCall c])
      | .verificationError => (.Denied .InvalidToken, [.verifyCall c])
      | .ok p =>
        match lookupSession p.sessionId with
        | .fault =>
          (.Denied .DependencyUnavailable, [.verifyCall c, .sessionCall p.sessionId])
        | .notFound =>
          (.Denied .SessionRevoked, [.verifyCall c, .sessionCall p.sessionId])
        | .revoked =>
          (.Denied .SessionRevoked, [.verifyCall c, .sessionCall p.sessionId])
        | .active =>
          if roleSatisfies p.role requirement then
            (.Authorized p,
             [.verifyCall c, .sessionCall p.sessionId, .roleCheck p.role requirement])
          else
            (.Denied .RoleMismatch,
             [.verifyCall c, .sessionCall p.sessionId, .roleCheck p.role requirement])

/-- Modelled from the spec: the public contract
`authorize(rawCredential, requirement) -> GateOutcome` of §4.1, with the two
external collaborators passed as explicit dependencies (§9). -/
def authorize (verify : String → VerifyResult)
    (lookupSession : String → SessionLookupResult)
    (rawCredential : Option String)
    (requirement : CapabilityRequirement) : GateOutcome :=
  (authorizeT verify lookupSession rawCredential requirement).1

/-- The principal carried by an outcome, if any: denials carry only a reason. -/
def outcomePrincipal : GateOutcome → Option Principal
  | .Authorized p => some p
  | .Denied _ => none

/-- Modelled from the spec: the conventional HTTP status-class mapping of §6
(the HTTP-facing layer is glue outside the gate; the source's health check
maps a dependency fault to 503). -/
def httpStatusClass : GateOutcome → Nat
  | .Authorized _ => 200
  | .Denied .MissingCredential => 401
  | .Denied .InvalidToken => 401
  | .Denied .SessionRevoked => 401
  | .Denied .RoleMismatch => 403
  | .Denied .DependencyUnavailable => 503

/-- Modelled from the spec: the gate's evaluation as a relation between the
inputs (with the collaborators' answers fixed) and the produced outcome,
one constructor per terminal path of §4.1.  Determinism of this relation
states that two invocations with the same credential, requirement, verifier
result and session-store result produce the same outcome. -/
inductive Authorizes (verify : String → VerifyResult)
    (lookupSession : String → SessionLookupResult) :
    Option String → CapabilityRequirement → GateOutcome → Prop where
  | missingNone (req : CapabilityRequirement) :
      Authorizes verify lookupSession none req (.Denied .MissingCredential)
  | missingEmpty (req : CapabilityRequirement) :
      Authorizes verify lookupSession (some "") req (.Denied .MissingCredential)
  | verifierFault (c : String) (req : CapabilityRequirement) :
      c ≠ "" → verify c = .fault →
      Authorizes verify lookupSession (some c) req (.Denied .DependencyUnavailable)
  | invalid (c : String) (req : CapabilityRequirement) :
      c ≠ "" → verify c = .verificationError →
      Authorizes verify lookupSession (some c) req (.Denied .InvalidToken)
  | storeFault (c : String) (p : Principal) (req : CapabilityRequirement) :
      c ≠ "" → verify c = .ok p → lookupSession p.sessionId = .fault →
      Authorizes verify lookupSession (some c) req (.Denied .DependencyUnavailable)
  | sessionGone (c : String) (p : Principal) (req : CapabilityRequirement) :
      c ≠ "" → verify c = .ok p →
      (lookupSession p.sessionId = .notFound ∨ lookupSession p.sessionId = .revoked) →
      Authorizes verify lookupSession (some c) req (.Denied .SessionRevoked)
  | roleFail (c : String) (p : Principal) (req : CapabilityRequirement) :
      c ≠ "" → verify c = .ok p → lookupSession p.sessionId = .active →
      roleSatisfies p.role req = false →
      Authorizes verify lookupSession (some c) req (.Denied .RoleMismatch)
  | roleOk (c : String) (p : Principal) (req : CapabilityRequirement) :
      c ≠ "" → verify c = .ok p → lookupSession p.sessionId = .active →
      roleSatisfies p.role req = true →
      Authorizes verify lookupSession (some c) req (.Authorized p)

/-- The token payload fields the example application's handlers read
(`current_user.sub`, `current_user.email`, `current_user.role`,
`current_user.session_id` in `example_auth_app.py`). -/
structure TokenPayload where
  sub : String
  email : String
  role : String
  session_id : String
deriving DecidableEq, Repr

/-- A handler's result: a JSON-style body (message plus a data dictionary of
key/value pairs, numbers rendered as literals) or a raised HTTPException. -/
inductive HandlerResult where
  | ok (message : String) (data : List (String × String)) : HandlerResult
  | httpError (status : Nat) (detail : String) : HandlerResult
deriving DecidableEq, Repr

/-- The `/student-data` handler of `example_auth_app.py`: students get their
own record, faculty and admin get the aggregated overview, anyone else gets
a 403 HTTPException. -/
def get_student_data (current_user : TokenPayload) : HandlerResult :=
  if current_user.role = "student" then
    .ok "Your student data"
      [("student_id", current_user.sub), ("email", current_user.email),
       ("cgpa", "8.5"), ("semester", "6"), ("backlogs", "0")]
  else if current_user.role ∈ ["faculty", "admin"] then
    .ok "Student data overview"
      [("total_students", "150"), ("average_cgpa", "7.8"),
       ("students_with_backlogs", "25"), ("current_semester", "6")]
  else
    .httpError 403 "Access denied"

/-- The whitespace characters removed by Python's `str.strip()` (ASCII). -/
def isSpaceChar (c : Char) : Bool :=
  c == ' ' || c == '\t' || c == '\n' || c == '\r' || c == '\x0b' || c == '\x0c'

/-- Python's `line.strip()` on the characters of a line: drop whitespace
from both ends. -/
def pyStrip (line : String) : List Char :=
  ((line.data.dropWhile isSpaceChar).reverse.dropWhile isSpaceChar).reverse

/-- The filter of `debug_memory.py`'s loop: a line is executed when its
stripped form is nonempty and does not start with a hash mark
(`if line.strip() and not line.strip().startswith('#')`). -/
def shouldExecute (line : String) : Bool :=
  match pyStrip line with
  | [] => false
  | c :: _ => c != '#'

/-- The line-by-line loop of `debug_memory.py`, over an abstract namespace
type `N` and an abstract single-line execution `execLine` (Python's `exec`)
that either updates the shared namespace or raises.  `i` is the 1-based
index of the first line (the script enumerates from 1).  Returns the list
of indices of executed lines in order, the index of the failing line if the
loop broke, and the final namespace. -/
def debugGo {N E : Type} (execLine : String → N → Except E N) :
    Nat → List String → N → List Nat × Option Nat × N
  | _, [], ns => ([], none, ns)
  | i, line :: rest, ns =>
    if shouldExecute line then
      match execLine line ns with
      | .ok ns' =>
        let r := debugGo execLine (i + 1) rest ns'
        (i :: r.1, r.2.1, r.2.2)
      | .error _ => ([i], some i, ns)
    else debugGo execLine (i + 1) rest ns

/-- `debug_memory.py`'s main loop: `for i, line in enumerate(lines, 1)`,
starting from an initial shared namespace. -/
def debugRun {N E : Type} (execLine : String → N → Except E N)
    (lines : List String) (ns : N) : List Nat × Option Nat × N :=
  debugGo execLine 1 lines ns

/-! ### Test fixtures: concrete collaborators for witnesses -/

/-- A concrete principal used by the concrete fixtures below. -/
def demoPrincipal : Principal :=
  { sub := "u1", email := "u1@example.edu", role := "admin",
    sessionId := "s1", iat := 0, exp := 100 }

/-- A concrete verifier accepting exactly the credential `tok`. -/
def demoVerify : String → VerifyResult :=
  fun c => if c = "tok" then .ok demoPrincipal else .verificationError

/-- A concrete session store in which exactly session `s1` is active. -/
def demoLookup : String → SessionLookupResult :=
  fun s => if s = "s1" then .active else .notFound

/-- A concrete session store in which every session is revoked. -/
def demoRevokedLookup : String → SessionLookupResult := fun _ => .revoked

/-- A concrete verifier that always reports a transport-level fault. -/
def demoFaultVerify : String → VerifyResult := fun _ => .fault

/-! ### Helper lemmas about the gate -/

/-- The gate's function always realizes its evaluation relation. -/
theorem authorize_total (v : String → VerifyResult)
    (l : String → SessionLookupResult) (cred : Option String)
    (req : CapabilityRequirement) :
    Authorizes v l cred req (authorize v l cred req) := by
  rcases cred with _ | c
  · exact Authorizes.missingNone req
  · by_cases hc : c = ""
    · subst hc
      have h : authorize v l (some "") req = .Denied .MissingCredential := by
        simp [authorize, authorizeT]
      rw [h]; exact Authorizes.missingEmpty req
    · rcases hv : v c with p | _ | _
      · rcases hl : l p.sessionId with _ | _ | _ | _
        · rcases hr : roleSatisfies p.role req with _ | _
          · have h : authorize v l (some c) req = .Denied .RoleMismatch := by
              simp [authorize, authorizeT, if_neg hc, hv, hl, hr]
            rw [h]; exact Authorizes.roleFail c p req hc hv hl hr
          · have h : authorize v l (some c) req = .Authorized p := by
              simp [authorize, authorizeT, if_neg hc, hv, hl, hr]
            rw [h]; exact Authorizes.roleOk c p req hc hv hl hr
        · have h : authorize v l (some c) req = .Denied .SessionRevoked := by
            simp [authorize, authorizeT, if_neg hc, hv, hl]
          rw [h]; exact Authorizes.sessionGone c p req hc hv (Or.inr hl)
        · have h : authorize v l (some c) req = .Denied .SessionRevoked := by
            simp [authorize, authorizeT, if_neg hc, hv, hl]
          rw [h]; exact Authorizes.sessionGone c p req hc hv (Or.inl hl)
        · have h : authorize v l (some c) req = .Denied .DependencyUnavailable := by
            simp [authorize, authorizeT, if_neg hc, hv, hl]
          rw [h]; exact Authorizes.storeFault c p req hc hv hl
      · have h : authorize v l (some c) req = .Denied .InvalidToken := by
          simp [authorize, authorizeT, if_neg hc, hv]
        rw [h]; exact Authorizes.invalid c req hc hv
      · have h : authorize v l (some c) req = .Denied .DependencyUnavailable := by
          simp [authorize, authorizeT, if_neg hc, hv]
        rw [h]; exact Authorizes.verifierFault c req hc hv

/-- Any outcome derivable by the evaluation relation is the gate's outcome. -/
theorem authorizes_eq {v : String → VerifyResult}
    {l : String → SessionLookupResult} {cred : Option String}
    {req : CapabilityRequirement} {o : GateOutcome}
    (h : Authorizes v l cred req o) : authorize v l cred req = o := by
  cases h with
  | missingNone req => rfl
  | missingEmpty req => simp [authorize, authorizeT]
  | verifierFault c req hc hv => simp [authorize, authorizeT, if_neg hc, hv]
  | invalid c req hc hv => simp [authorize, authorizeT, if_neg hc, hv]
  | storeFault c p req hc hv hl =>
      simp [authorize, authorizeT, if_neg hc, hv, hl]
  | sessionGone c p req hc hv hl =>
      rcases hl with hl | hl <;> simp [authorize, authorizeT, if_neg hc, hv, hl]
  | roleFail c p req hc hv hl hr =>
      simp [authorize, authorizeT, if_neg hc, hv, hl, hr]
  | roleOk c p req hc hv hl hr =>
      simp [authorize, authorizeT, if_neg hc, hv, hl, hr]

/-! ### Claim theorems about the gate -/

/-- C1: `authorize` returns an `Authorized` outcome only if the credential's
token passed verification (the verifier returned the principal) and the
session referenced by the token is active; and any role comparison the gate
performs happens only on a path where verification and the session check
already succeeded, and compares the verified principal's role, never an
unverified token's claims. -/
theorem principal_requires_verification (v : String → VerifyResult)
    (l : String → SessionLookupResult) (cred : Option String)
    (req : CapabilityRequirement) :
    (∀ p, authorize v l cred req = .Authorized p →
      ∃ c, cred = some c ∧ v c = .ok p ∧ l p.sessionId = .active) ∧
    (∀ role, GateEvent.roleCheck role req ∈ (authorizeT v l cred req).2 →
      ∃ c p, cred = some c ∧ v c = .ok p ∧ l p.sessionId = .active ∧
        role = p.role) := by
  constructor
  · intro p h
    have ht := authorize_total v l cred req
    rw [h] at ht
    cases ht with
    | roleOk c p' req' hc hv hl hr => exact ⟨c, rfl, hv, hl⟩
  · intro role h
    rcases cred with _ | c
    · simp [authorizeT] at h
    · by_cases hc : c = ""
      · subst hc; simp [authorizeT] at h
      · simp only [authorizeT, if_neg hc] at h
        rcases hv : v c with p | _ | _ <;> simp only [hv] at h
        · rcases hl : l p.sessionId with _ | _ | _ | _ <;> simp only [hl] at h
          · by_cases hr : roleSatisfies p.role req = true <;> simp [hr] at h
            · exact ⟨c, p, rfl, hv, hl, h⟩
            · exact ⟨c, p, rfl, hv, hl, h⟩
          · simp at h
          · simp at h
          · simp at h
        · simp at h
        · simp at h

/-- Witness for C1 at the concrete fixtures. -/
theorem principal_requires_verification_witness :
    ∃ c, (some "tok" : Option String) = some c ∧
      demoVerify c = .ok demoPrincipal ∧
      demoLookup demoPrincipal.sessionId = .active :=
  (principal_requires_verification demoVerify demoLookup (some "tok")
    .authenticatedOnly).1 demoPrincipal rfl

/-- C2: if the verifier judges a credential invalid or expired, `authorize`
never returns an `Authorized` outcome, regardless of the requirement. -/
theorem invalid_token_never_authorized (v : String → VerifyResult)
    (l : String → SessionLookupResult) (c : String)
    (req : CapabilityRequirement) (p : Principal)
    (hv : v c = .verificationError) :
    authorize v l (some c) req ≠ .Authorized p := by
  intro h
  have ht := authorize_total v l (some c) req
  rw [h] at ht
  cases ht with
  | roleOk c' p' req' hc hv' hl hr => rw [hv] at hv'; exact VerifyResult.noConfusion hv'

/-- Witness for C2 at the concrete fixtures. -/
theorem invalid_token_never_authorized_witness :
    authorize demoVerify demoLookup (some "bad") .authenticatedOnly ≠
      .Authorized demoPrincipal :=
  invalid_token_never_authorized demoVerify demoLookup "bad"
    .authenticatedOnly demoPrincipal rfl

/-- C3: with a valid token and an active session, `authorize` returns
`Authorized p` iff `p`'s role satisfies the requirement, where
authenticated-only always holds, exact-role holds iff the roles are equal
and role-in-set holds iff the role is a member; a student principal is
denied `RoleMismatch` against the set `{faculty, admin}` while an admin
principal is authorized against it. -/
theorem valid_session_role_check (v : String → VerifyResult)
    (l : String → SessionLookupResult) (c : String)
    (req : CapabilityRequirement) (p : Principal)
    (hc : c ≠ "") (hv : v c = .ok p) (hl : l p.sessionId = .active) :
    (authorize v l (some c) req = .Authorized p ↔
      roleSatisfies p.role req = true) ∧
    roleSatisfies p.role .authenticatedOnly = true ∧
    (∀ R, roleSatisfies p.role (.exactRole R) = true ↔ p.role = R) ∧
    (∀ rs, roleSatisfies p.role (.roleIn rs) = true ↔ p.role ∈ rs) ∧
    (p.role = "student" →
      authorize v l (some c) (.roleIn ["faculty", "admin"]) =
        .Denied .RoleMismatch) ∧
    (p.role = "admin" →
      authorize v l (some c) (.roleIn ["faculty", "admin"]) = .Authorized p) := by
  refine ⟨?_, rfl, ?_, ?_, ?_, ?_⟩
  · by_cases hr : roleSatisfies p.role req = true <;>
      simp [authorize, authorizeT, if_neg hc, hv, hl, hr]
  · intro R; simp [roleSatisfies, beq_iff_eq]
  · intro rs; simp [roleSatisfies, List.contains, List.elem_iff]
  · intro hrole
    have hr : roleSatisfies p.role (.roleIn ["faculty", "admin"]) = false := by
      rw [hrole]; decide
    simp [authorize, authorizeT, if_neg hc, hv, hl, hr]
  · intro hrole
    have hr : roleSatisfies p.role (.roleIn ["faculty", "admin"]) = true := by
      rw [hrole]; decide
    simp [authorize, authorizeT, if_neg hc, hv, hl, hr]

/-- Witness for C3 at the concrete fixtures: the admin scenario. -/
theorem valid_session_role_check_witness :
    authorize demoVerify demoLookup (some "tok") (.roleIn ["faculty", "admin"]) =
      .Authorized demoPrincipal :=
  (valid_session_role_check demoVerify demoLookup "tok"
    (.roleIn ["faculty", "admin"]) demoPrincipal (by decide) rfl rfl).2.2.2.2.2 rfl

/-- C4: if verification succeeds but the session is marked revoked or is
absent, every call of `authorize` with a token tied to that session returns
`Denied SessionRevoked` and never `Authorized`, for every requirement. -/
theorem revoked_session_denied (v : String → VerifyResult)
    (l : String → SessionLookupResult) (c : String) (p : Principal)
    (hc : c ≠ "") (hv : v c = .ok p)
    (hl : l p.sessionId = .revoked ∨ l p.sessionId = .notFound) :
    ∀ req, authorize v l (some c) req = .Denied .SessionRevoked ∧
      ∀ q, authorize v l (some c) req ≠ .Authorized q := by
  intro req
  rcases hl with hl | hl <;>
    exact ⟨by simp [authorize, authorizeT, if_neg hc, hv, hl],
           fun q h => by simp [authorize, authorizeT, if_neg hc, hv, hl] at h⟩

/-- Witness for C4 at the concrete fixtures. -/
theorem revoked_session_denied_witness :
    authorize demoVerify demoRevokedLookup (some "tok") .authenticatedOnly =
      .Denied .SessionRevoked :=
  (revoked_session_denied demoVerify demoRevokedLookup "tok" demoPrincipal
    (by decide) rfl (Or.inl rfl) .authenticatedOnly).1

/-- C5: with an absent or empty credential, `authorize` fails immediately
with `MissingCredential` and the gate performs no external work at all: the
recorded event list is empty, so no verifier call and no session-store
lookup happen on this path, for every requirement. -/
theorem missing_credential_short_circuit (v : String → VerifyResult)
    (l : String → SessionLookupResult) (req : CapabilityRequirement) :
    authorizeT v l none req = (.Denied .MissingCredential, []) ∧
    authorizeT v l (some "") req = (.Denied .MissingCredential, []) ∧
    authorize v l none req = .Denied .MissingCredential ∧
    authorize v l (some "") req = .Denied .MissingCredential := by
  refine ⟨rfl, ?_, rfl, ?_⟩ <;> simp [authorize, authorizeT]

/-- C6: on a role mismatch with an otherwise fully authenticated principal,
`authorize` returns `Denied RoleMismatch`, an outcome that carries no
principal (hence no subject identifier and no email): denials carry only a
reason. -/
theorem role_mismatch_hides_principal (v : String → VerifyResult)
    (l : String → SessionLookupResult) (c : String)
    (req : CapabilityRequirement) (p : Principal)
    (hc : c ≠ "") (hv : v c = .ok p) (hl : l p.sessionId = .active)
    (hr : roleSatisfies p.role req = false) :
    authorize v l (some c) req = .Denied .RoleMismatch ∧
    outcomePrincipal (authorize v l (some c) req) = none ∧
    ∀ r, outcomePrincipal (.Denied r) = none := by
  have h : authorize v l (some c) req = .Denied .RoleMismatch := by
    simp [authorize, authorizeT, if_neg hc, hv, hl, hr]
  exact ⟨h, by rw [h]; rfl, fun r => rfl⟩

/-- Witness for C6 at the concrete fixtures: the admin principal denied an
exact-role requirement for students. -/
theorem role_mismatch_hides_principal_witness :
    authorize demoVerify demoLookup (some "tok") (.exactRole "student") =
      .Denied .RoleMismatch ∧
    outcomePrincipal
      (authorize demoVerify demoLookup (some "tok") (.exactRole "student")) =
      none ∧
    ∀ r, outcomePrincipal (.Denied r) = none :=
  role_mismatch_hides_principal demoVerify demoLookup "tok"
    (.exactRole "student") demoPrincipal (by decide) rfl rfl (by decide)

/-- C7: a transport-level fault of the verifier or of the session store
yields the distinct `DependencyUnavailable` outcome (never `InvalidToken`
or another denial), and the HTTP mapping sends it to the 503 class while
missing credential and invalid token map to 401 and role mismatch to 403. -/
theorem dependency_fault_distinct (v : String → VerifyResult)
    (l : String → SessionLookupResult) (c : String)
    (req : CapabilityRequirement) (hc : c ≠ "") :
    (v c = .fault →
      authorize v l (some c) req = .Denied .DependencyUnavailable) ∧
    (∀ p, v c = .ok p → l p.sessionId = .fault →
      authorize v l (some c) req = .Denied .DependencyUnavailable) ∧
    httpStatusClass (.Denied .DependencyUnavailable) = 503 ∧
    httpStatusClass (.Denied .MissingCredential) = 401 ∧
    httpStatusClass (.Denied .InvalidToken) = 401 ∧
    httpStatusClass (.Denied .RoleMismatch) = 403 :=
  ⟨fun hv => by simp [authorize, authorizeT, if_neg hc, hv],
   fun p hv hl => by simp [authorize, authorizeT, if_neg hc, hv, hl],
   rfl, rfl, rfl, rfl⟩

/-- Witness for C7 at the concrete fixtures: an always-faulting verifier. -/
theorem dependency_fault_distinct_witness :
    authorize demoFaultVerify demoLookup (some "tok") .authenticatedOnly =
      .Denied .DependencyUnavailable :=
  (dependency_fault_distinct demoFaultVerify demoLookup "tok"
    .authenticatedOnly (by decide)).1 rfl

/-- C8: the gate's evaluation is deterministic: two invocations with the
same credential, requirement, verifier and session store produce the same
outcome, and that outcome is exactly the one `authorize` computes (the gate
holds no state of its own: its entire behavior is a function of its
inputs). -/
theorem gate_pure_deterministic (v : String → VerifyResult)
    (l : String → SessionLookupResult) (cred : Option String)
    (req : CapabilityRequirement) (o1 o2 : GateOutcome)
    (h1 : Authorizes v l cred req o1) (h2 : Authorizes v l cred req o2) :
    o1 = o2 ∧ o1 = authorize v l cred req :=
  ⟨(authorizes_eq h1).symm.trans (authorizes_eq h2), (authorizes_eq h1).symm⟩

/-- Witness for C8 at the concrete fixtures: two derivations of the demo
authorization agree. -/
theorem gate_pure_deterministic_witness :
    GateOutcome.Authorized demoPrincipal = GateOutcome.Authorized demoPrincipal ∧
    GateOutcome.Authorized demoPrincipal =
      authorize demoVerify demoLookup (some "tok") .authenticatedOnly :=
  gate_pure_deterministic demoVerify demoLookup (some "tok")
    .authenticatedOnly (.Authorized demoPrincipal) (.Authorized demoPrincipal)
    (Authorizes.roleOk "tok" demoPrincipal .authenticatedOnly (by decide) rfl rfl rfl)
    (Authorizes.roleOk "tok" demoPrincipal .authenticatedOnly (by decide) rfl rfl rfl)

/-! ### Claim theorem about the `/student-data` handler -/

/-- C9: the `/student-data` handler returns the personal record (carrying
the principal's subject identifier and email) iff the role is `student`,
the aggregated overview iff the role is `faculty` or `admin`, and for any
other role a 403 HTTPException whose body is the constant `Access denied`,
carrying no principal fields. -/
theorem get_student_data_role_dispatch (u : TokenPayload) :
    (get_student_data u =
        .ok "Your student data"
          [("student_id", u.sub), ("email", u.email), ("cgpa", "8.5"),
           ("semester", "6"), ("backlogs", "0")] ↔ u.role = "student") ∧
    (get_student_data u =
        .ok "Student data overview"
          [("total_students", "150"), ("average_cgpa", "7.8"),
           ("students_with_backlogs", "25"), ("current_semester", "6")] ↔
      (u.role = "faculty" ∨ u.role = "admin")) ∧
    (u.role ≠ "student" → u.role ≠ "faculty" → u.role ≠ "admin" →
      get_student_data u = .httpError 403 "Access denied") := by
  by_cases hs : u.role = "student"
  · simp [get_student_data, hs]
  · by_cases hf : u.role = "faculty"
    · simp [get_student_data, hs, hf]
    · by_cases ha : u.role = "admin"
      · simp [get_student_data, hs, hf, ha]
      · simp [get_student_data, hs, hf, ha]

/-- Witness for C9 at a concrete payload with an unknown role. -/
theorem get_student_data_role_dispatch_witness :
    get_student_data
        { sub := "u9", email := "u9@example.edu", role := "guest",
          session_id := "s9" } =
      .httpError 403 "Access denied" :=
  (get_student_data_role_dispatch
      { sub := "u9", email := "u9@example.edu", role := "guest",
        session_id := "s9" }).2.2 (by decide) (by decide) (by decide)

/-! ### Helper lemmas about the debug loop -/

/-- Every index the loop executes is in range of the enumerated lines and
its line passes the blank/comment filter. -/
theorem debugGo_mem_spec {N E : Type} (execLine : String → N → Except E N)
    (lines : List String) :
    ∀ (i : Nat) (ns : N) (j : Nat),
      j ∈ (debugGo execLine i lines ns).1 →
      i ≤ j ∧ j < i + lines.length ∧
        shouldExecute (lines.getD (j - i) "") = true := by
  induction lines with
  | nil => intro i ns j h; simp [debugGo] at h
  | cons line rest ih =>
    intro i ns j h
    by_cases hs : shouldExecute line = true
    · rcases he : execLine line ns with err | ns'
      · simp only [debugGo, if_pos hs, he] at h
        simp at h
        refine ⟨by omega, by simp only [List.length_cons]; omega, ?_⟩
        rw [h, Nat.sub_self, List.getD_cons_zero]
        exact hs
      · simp only [debugGo, if_pos hs, he] at h
        simp only [List.mem_cons] at h
        rcases h with rfl | hmem
        · refine ⟨Nat.le_refl j, by simp only [List.length_cons]; omega, ?_⟩
          rw [Nat.sub_self, List.getD_cons_zero]
          exact hs
        · obtain ⟨h1, h2, h3⟩ := ih (i + 1) ns' j hmem
          refine ⟨by omega, by simp only [List.length_cons]; omega, ?_⟩
          have hji : j - i = (j - (i + 1)) + 1 := by omega
          rw [hji, List.getD_cons_succ]
          exact h3
    · simp only [debugGo, if_neg hs] at h
      obtain ⟨h1, h2, h3⟩ := ih (i + 1) ns j h
      refine ⟨by omega, by simp only [List.length_cons]; omega, ?_⟩
      have hji : j - i = (j - (i + 1)) + 1 := by omega
      rw [hji, List.getD_cons_succ]
      exact h3

/-- The executed indices are strictly increasing: lines run in order. -/
theorem debugGo_sorted {N E : Type} (execLine : String → N → Except E N)
    (lines : List String) :
    ∀ (i : Nat) (ns : N),
      List.Sorted (· < ·) (debugGo execLine i lines ns).1 := by
  induction lines with
  | nil => intro i ns; simp [debugGo]
  | cons line rest ih =>
    intro i ns
    by_cases hs : shouldExecute line = true
    · rcases he : execLine line ns with err | ns'
      · simp [debugGo, if_pos hs, he]
      · simp only [debugGo, if_pos hs, he]
        rw [List.sorted_cons]
        refine ⟨fun j hj => ?_, ih (i + 1) ns'⟩
        have := (debugGo_mem_spec execLine rest (i + 1) ns' j hj).1
        omega
    · simp only [debugGo, if_neg hs]
      exact ih (i + 1) ns

/-- If the loop records a failing index, that index was executed and no
executed index lies after it: the loop broke at the first failure. -/
theorem debugGo_fail_spec {N E : Type} (execLine : String → N → Except E N)
    (lines : List String) :
    ∀ (i : Nat) (ns : N) (k : Nat),
      (debugGo execLine i lines ns).2.1 = some k →
      k ∈ (debugGo execLine i lines ns).1 ∧
        ∀ j ∈ (debugGo execLine i lines ns).1, j ≤ k := by
  induction lines with
  | nil => intro i ns k h; simp [debugGo] at h
  | cons line rest ih =>
    intro i ns k h
    by_cases hs : shouldExecute line = true
    · rcases he : execLine line ns with err | ns'
      · simp only [debugGo, if_pos hs, he] at h ⊢
        simp at h
        subst h
        simp
      · simp only [debugGo, if_pos hs, he] at h ⊢
        obtain ⟨hk, hmax⟩ := ih (i + 1) ns' k h
        refine ⟨List.mem_cons_of_mem _ hk, fun j hj => ?_⟩
        rcases List.mem_cons.mp hj with hji | hj'
        · have := (debugGo_mem_spec execLine rest (i + 1) ns' k hk).1
          omega
        · exact hmax j hj'
    · simp only [debugGo, if_neg hs] at h ⊢
      exact ih (i + 1) ns k h

/-- If the loop never broke, every in-range index whose line passes the
filter was executed. -/
theorem debugGo_complete {N E : Type} (execLine : String → N → Except E N)
    (lines : List String) :
    ∀ (i : Nat) (ns : N),
      (debugGo execLine i lines ns).2.1 = none →
      ∀ j, i ≤ j → j < i + lines.length →
        shouldExecute (lines.getD (j - i) "") = true →
        j ∈ (debugGo execLine i lines ns).1 := by
  induction lines with
  | nil => intro i ns hnone j h1 h2 h3; simp only [List.length_nil] at h2; omega
  | cons line rest ih =>
    intro i ns hnone j h1 h2 h3
    by_cases hs : shouldExecute line = true
    · rcases he : execLine line ns with err | ns'
      · simp [debugGo, if_pos hs, he] at hnone
      · simp only [debugGo, if_pos hs, he] at hnone ⊢
        rcases Nat.eq_or_lt_of_le h1 with rfl | hlt
        · exact List.mem_cons_self _ _
        · refine List.mem_cons_of_mem _ (ih (i + 1) ns' hnone j hlt ?_ ?_)
          · simp only [List.length_cons] at h2; omega
          · have hji : j - i = (j - (i + 1)) + 1 := by omega
            rw [hji, List.getD_cons_succ] at h3
            exact h3
    · simp only [debugGo, if_neg hs] at hnone ⊢
      rcases Nat.eq_or_lt_of_le h1 with rfl | hlt
      · rw [Nat.sub_self, List.getD_cons_zero] at h3
        exact absurd h3 hs
      · refine ih (i + 1) ns hnone j hlt ?_ ?_
        · simp only [List.length_cons] at h2; omega
        · have hji : j - i = (j - (i + 1)) + 1 := by omega
          rw [hji, List.getD_cons_succ] at h3
          exact h3

/-! ### Claim theorem about the debug loop -/

/-- C10: the debug script's loop executes only lines whose stripped form is
nonempty and does not start with `#`, executes them in strictly increasing
line order through one threaded namespace, stops at the recorded failing
line so that no executed index lies after it, and, when no line fails,
executes every in-range line that passes the filter. -/
theorem debug_loop_spec {N E : Type} (execLine : String → N → Except E N)
    (lines : List String) (ns : N) :
    (∀ j ∈ (debugRun execLine lines ns).1,
        1 ≤ j ∧ j ≤ lines.length ∧
          shouldExecute (lines.getD (j - 1) "") = true) ∧
    List.Sorted (· < ·) (debugRun execLine lines ns).1 ∧
    (∀ k, (debugRun execLine lines ns).2.1 = some k →
        k ∈ (debugRun execLine lines ns).1 ∧
          ∀ j ∈ (debugRun execLine lines ns).1, j ≤ k) ∧
    ((debugRun execLine lines ns).2.1 = none →
      ∀ j, 1 ≤ j → j ≤ lines.length →
        shouldExecute (lines.getD (j - 1) "") = true →
        j ∈ (debugRun execLine lines ns).1) := by
  refine ⟨?_, debugGo_sorted execLine lines 1 ns,
          debugGo_fail_spec execLine lines 1 ns, ?_⟩
  · intro j hj
    obtain ⟨h1, h2, h3⟩ := debugGo_mem_spec execLine lines 1 ns j hj
    exact ⟨h1, by omega, h3⟩
  · intro h j h1 h2 h3
    exact debugGo_complete execLine lines 1 ns h j h1 (by omega) h3

/-- A concrete file for the debug-loop witness: an ordinary line, a blank
line, a comment, a failing line, and a line after the failure. -/
def debugLines : List String := ["a = 1", "", "  # comment", "boom", "b = 2"]

/-- A concrete single-line execution for the witness: `boom` raises, any
other line increments the namespace counter. -/
def debugExec : String → Nat → Except Unit Nat :=
  fun line n => if line = "boom" then .error () else .ok (n + 1)

/-- Witness for C10 at the concrete fixtures: line 4 (`boom`) is executed,
in range, and passes the filter. -/
theorem debug_loop_spec_witness :
    1 ≤ 4 ∧ 4 ≤ debugLines.length ∧
      shouldExecute (debugLines.getD (4 - 1) "") = true :=
  (debug_loop_spec debugExec debugLines 0).1 4 (by decide)
